import Mathlib

/-!
Shallow embedding of `src/QT_HUD_UI.cpp` (SherrifHUD).

The file contains two classes and a `main`:

* `DataStreamer` (lines 15-37): `startStreaming` creates and starts a thread
  running `int counter = 0; while (true) { data = ("Data update: %1").arg(counter++);
  emit dataChanged(data); sleep_for(seconds(1)); }`.  There is no running check,
  no stop condition and no `AlreadyRunningError`.
* `SimpleUI` (lines 40-119): a widget constructor that sets a title, size, two
  style sheets in sequence, the `WA_TranslucentBackground` attribute and the
  `FramelessWindowHint` flag, and builds five labels.
* `main` (lines 122-127): constructs `QApplication`, constructs `SimpleUI`,
  shows it, and runs the event loop.  It never touches `DataStreamer`.

Machine integers: the C++ `int` counter is modelled as a stored `Nat` value
kept below `2^32`, read back through `toSigned` (two's-complement view), so
`counter++` past `INT_MAX` wraps.
-/

namespace QTHUD

/-- Two's-complement reading of a stored 32-bit value. -/
def toSigned (v : Nat) : Int :=
  if v < 2 ^ 31 then (v : Int) else (v : Int) - 2 ^ 32

/-- The stored 32-bit counter value after `n` increments from 0. -/
def counterVal (n : Nat) : Nat := n % 2 ^ 32

/-- The numeric value formatted into the `n`-th payload:
the counter after `n` increments, read as a signed 32-bit int. -/
def payloadNum (n : Nat) : Int := toSigned (counterVal n)

/-- `QString("Data update: %1").arg(counter)` for the `n`-th emission. -/
def payload (n : Nat) : String := "Data update: " ++ toString (payloadNum n)

/-- One emission of the `dataChanged` signal (line 29). -/
structure Emission where
  data : String
  deriving Repr, DecidableEq

/-- The thread-local state of one production loop: the stored value of
`int counter` (line 26). -/
structure LoopState where
  counter : Nat
  deriving Repr, DecidableEq

/-- `int counter = 0;` (line 26). -/
def initLoopState : LoopState := ⟨0⟩

/-- The `while (true)` condition (line 27). -/
def loopCond (_ : LoopState) : Bool := true

/-- Milliseconds slept by `std::this_thread::sleep_for(std::chrono::seconds(1))`
(line 30), the only delay in the loop body. -/
def iterationSleepMs : Nat := 1000

/-- One iteration of the loop body (lines 28-30): format the payload from the
current counter, post-increment the counter (32-bit wrap), emit. -/
def loopBody (s : LoopState) : Emission × LoopState :=
  (⟨"Data update: " ++ toString (toSigned s.counter)⟩, ⟨(s.counter + 1) % 2 ^ 32⟩)

/-- Fuel-bounded unfolding of the `while (true)` loop: run `n` iterations,
collecting the emissions, stopping early only if the loop condition fails. -/
def runFor : Nat → LoopState → List Emission × LoopState
  | 0, s => ([], s)
  | n + 1, s =>
    if loopCond s then
      let p := loopBody s
      let r := runFor n p.2
      (p.1 :: r.1, r.2)
    else ([], s)

/-- The loop state at the start of iteration `n` (counting from the
`int counter = 0` entry state). -/
def loopStateAt : Nat → LoopState
  | 0 => initLoopState
  | n + 1 => (loopBody (loopStateAt n)).2

/-- The `n`-th emission of a production loop (0-based). -/
def emissionAt (n : Nat) : Emission := (loopBody (loopStateAt n)).1

/-- Wall-clock time (ms) of the `n`-th emission when each iteration sleeps
`intervalMs` after emitting: the emission precedes the sleep, so emission 0
happens at `t = 0` and each later one a full interval after the previous. -/
def emissionClock (intervalMs : Nat) : Nat → Nat
  | 0 => 0
  | n + 1 => emissionClock intervalMs n + intervalMs

/-- A subscriber active since `t = 0` has received emission `n` by time `t`
(ms) iff that emission has already happened. -/
def receivedBy (intervalMs t n : Nat) : Prop := emissionClock intervalMs n ≤ t

instance (intervalMs t n : Nat) : Decidable (receivedBy intervalMs t n) :=
  inferInstanceAs (Decidable (_ ≤ _))

/-- The streamer-side error type.  The source defines no error at all;
this inductive records the absence: no constructor of it is ever produced. -/
inductive StreamError
  | alreadyRunningError
  deriving Repr, DecidableEq

/-- A `DataStreamer` object: the set of production-loop threads it has
started.  The class has no other state (lines 15-37). -/
structure StreamerState where
  threads : List LoopState
  deriving Repr, DecidableEq

/-- A freshly constructed `DataStreamer` (line 21): no thread started. -/
def initStreamer : StreamerState := ⟨[]⟩

/-- `startStreaming` (lines 23-33): unconditionally create and start one more
production loop with a fresh `counter = 0`; return no error (the method is
`void`, performs no running check and never throws). -/
def startStreaming (s : StreamerState) : StreamerState × Option StreamError :=
  (⟨s.threads ++ [initLoopState]⟩, none)

-- Helper lemmas about the loop.

/-- The loop state entering iteration `n` stores `n % 2^32`. -/
theorem loopStateAt_counter (n : Nat) : (loopStateAt n).counter = counterVal n := by
  induction n with
  | zero => rfl
  | succ k ih =>
    simp only [loopStateAt, loopBody, ih, counterVal, Nat.mod_add_mod]

/-- The `n`-th emission carries the `n`-th payload. -/
theorem emissionAt_eq (n : Nat) : emissionAt n = ⟨payload n⟩ := by
  simp only [emissionAt, loopBody, payload, payloadNum, loopStateAt_counter]

/-- Closed form of the emission clock. -/
theorem emissionClock_eq (intervalMs n : Nat) :
    emissionClock intervalMs n = n * intervalMs := by
  induction n with
  | zero => simp [emissionClock]
  | succ k ih => simp [emissionClock, ih, Nat.succ_mul]

/-! ## The `SimpleUI` widget (lines 40-119) -/

/-- A `QLabel`: the properties the constructor actually sets. -/
structure Label where
  text : String
  pixmap : Option String
  fontPointSize : Nat
  fontUnderline : Bool
  fixedWidth : Nat
  fixedHeight : Nat
  deriving Repr, DecidableEq

/-- A default-constructed `QLabel()`. -/
def newLabel : Label :=
  { text := "", pixmap := none, fontPointSize := 0, fontUnderline := false,
    fixedWidth := 0, fixedHeight := 0 }

/-- `QWidget` window-level state touched by the `SimpleUI` constructor. -/
structure WidgetState where
  windowTitle : String
  width : Nat
  height : Nat
  styleSheet : String
  translucentBackground : Bool
  framelessWindowHint : Bool
  deriving Repr, DecidableEq

/-- A `QWidget` before the constructor body runs: empty title and style
sheet, no attribute or flag set. -/
def initWidget : WidgetState :=
  { windowTitle := "", width := 0, height := 0, styleSheet := "",
    translucentBackground := false, framelessWindowHint := false }

def setWindowTitle (t : String) (w : WidgetState) : WidgetState :=
  { w with windowTitle := t }

def resize (x y : Nat) (w : WidgetState) : WidgetState :=
  { w with width := x, height := y }

/-- `setStyleSheet` replaces the widget's whole style sheet string. -/
def setStyleSheet (s : String) (w : WidgetState) : WidgetState :=
  { w with styleSheet := s }

/-- `setAttribute(Qt::WA_TranslucentBackground)` (line 48). -/
def setTranslucentAttribute (w : WidgetState) : WidgetState :=
  { w with translucentBackground := true }

/-- `setWindowFlags(Qt::FramelessWindowHint)` (line 49). -/
def setFramelessFlag (w : WidgetState) : WidgetState :=
  { w with framelessWindowHint := true }

/-- Window-level effect of the `SimpleUI` constructor, in source order
(lines 44-49). -/
def simpleUIWindow : WidgetState :=
  setFramelessFlag
    (setTranslucentAttribute
      (setStyleSheet "border: 4px solid black;"
        (setStyleSheet "background:transparent;"
          (resize 800 600
            (setWindowTitle "Advanced Qt UI" initWidget)))))

/-- `upperTextBox` (lines 64-70): the street-name label, 40pt underlined. -/
def upperTextBox : Label :=
  { newLabel with
    fixedWidth := 750, fixedHeight := 100, fontPointSize := 40,
    fontUnderline := true,
    text := "<font color=\"black\"> Next Street Name </font>" }

/-- `imageLabel` (lines 76-79): the directional-arrow image label. -/
def imageLabel : Label :=
  { newLabel with
    pixmap := some "Arrow_Left.png", fixedWidth := 500, fixedHeight := 500 }

/-- `rightTextBox1` (lines 82-88): high-priority messages, red. -/
def rightTextBox1 : Label :=
  { newLabel with
    fixedWidth := 500, fixedHeight := 100, fontPointSize := 24,
    fontUnderline := true,
    text := "<font color=\"red\"> <outline-color=\"black\"> High Priority Messages </font>" }

/-- `rightTextBox2` (lines 90-95): medium-priority messages, gold. -/
def rightTextBox2 : Label :=
  { newLabel with
    fixedWidth := 500, fixedHeight := 100, fontPointSize := 24,
    fontUnderline := true,
    text := "<font color=\"gold\"> <outline-color=\"black\"> Medium Priority Messages </font>" }

/-- `rightTextBox3` (lines 97-102): low-priority messages, green. -/
def rightTextBox3 : Label :=
  { newLabel with
    fixedWidth := 500, fixedHeight := 100, fontPointSize := 24,
    fontUnderline := true,
    text := "<font color=\"green\"> <outline-color=\"black\"> Low Priority Messages </font>" }

/-- What each label is, for counting: the street-name label, the image
label, or a priority-message label. -/
inductive LabelRole
  | street
  | image
  | priority
  deriving Repr, DecidableEq

/-- All labels the constructor creates and adds to the layouts
(lines 71-116), with their roles, in layout order. -/
def simpleUILabels : List (LabelRole × Label) :=
  [(.street, upperTextBox), (.image, imageLabel),
   (.priority, rightTextBox1), (.priority, rightTextBox2), (.priority, rightTextBox3)]

/-- A text string opens with a `<font color="c">` tag. -/
def declaresFontColor (c : String) (l : Label) : Bool :=
  ("<font color=\"" ++ c ++ "\">").data.isPrefixOf l.text.data

/-! ## Signal wiring and UI state -/

/-- The text shown by each of the five labels: the mutable UI surface a
connected slot could update. -/
structure UIState where
  streetText : String
  imageText : String
  priority1Text : String
  priority2Text : String
  priority3Text : String
  deriving Repr, DecidableEq

/-- The UI surface right after construction. -/
def initUIState : UIState :=
  { streetText := upperTextBox.text, imageText := imageLabel.text,
    priority1Text := rightTextBox1.text, priority2Text := rightTextBox2.text,
    priority3Text := rightTextBox3.text }

/-- Slots that could be connected to `dataChanged`, one per UI element. -/
inductive Slot
  | setStreetText
  | setImageText
  | setPriority1Text
  | setPriority2Text
  | setPriority3Text
  deriving Repr, DecidableEq

/-- Effect of invoking one slot with the emitted payload. -/
def applySlot (sl : Slot) (data : String) (u : UIState) : UIState :=
  match sl with
  | .setStreetText => { u with streetText := data }
  | .setImageText => { u with imageText := data }
  | .setPriority1Text => { u with priority1Text := data }
  | .setPriority2Text => { u with priority2Text := data }
  | .setPriority3Text => { u with priority3Text := data }

/-- The slots the program connects to `dataChanged`: the source contains no
`connect` call anywhere (neither in `SimpleUI`, lines 40-119, nor in `main`,
lines 122-127), so the list is empty. -/
def dataChangedConnections : List Slot := []

/-- Delivering one `dataChanged` emission invokes every connected slot. -/
def deliverDataChanged (data : String) (u : UIState) : UIState :=
  dataChangedConnections.foldl (fun u sl => applySlot sl data u) u

/-! ## `main` (lines 122-127) -/

/-- The statements `main` could execute, including the streamer operations
it does not. -/
inductive MainAction
  | constructQApplication
  | constructSimpleUI
  | showWindow
  | execEventLoop
  | constructDataStreamer
  | callStartStreaming
  deriving Repr, DecidableEq

/-- The statements `main` executes, in order (lines 123-126). -/
def mainActions : List MainAction :=
  [.constructQApplication, .constructSimpleUI, .showWindow, .execEventLoop]

/-- Background threads created by one `main` statement: only
`startStreaming` creates one (`QThread::create(...)->start()`, lines 25-32). -/
def threadsCreated (a : MainAction) : Nat :=
  match a with
  | .callStartStreaming => 1
  | _ => 0

/-- `dataChanged` emissions reachable from one `main` statement: only a
started streaming thread emits (line 29). -/
def emitsDataChanged (a : MainAction) : Bool :=
  match a with
  | .callStartStreaming => true
  | _ => false

/-! ## Claim theorems -/

/-- C1 (counterexample): the claim "for all N ≥ 0, the Nth emission carries
sequence number N" fails at N = 2^31: there the 32-bit counter has wrapped
and the emitted payload is "Data update: -2147483648", not
"Data update: 2147483648". -/
theorem c1_counterexample : (emissionAt (2 ^ 31)).data ≠ "Data update: 2147483648" := by
  rw [emissionAt_eq]
  decide

/-- C1 (amended): for every N below 2^31, the Nth emission of a production
loop carries sequence number N — payload "Data update: N" — with no gaps or
duplicates; and each call to `startStreaming` starts a fresh loop whose
counter begins at 0, so its emissions restart from "Data update: 0". -/
theorem c1_nth_emission_carries_n (N : Nat) (h : N < 2 ^ 31) (s : StreamerState) :
    (emissionAt N).data = "Data update: " ++ toString N ∧
    ((startStreaming s).1).threads.getLast? = some initLoopState ∧
    initLoopState.counter = 0 ∧
    (emissionAt 0).data = "Data update: 0" := by
  refine ⟨?_, ?_, rfl, rfl⟩
  · rw [emissionAt_eq]
    simp only [payload, payloadNum, counterVal, toSigned]
    rw [Nat.mod_eq_of_lt (by omega), if_pos h]
    rfl
  · simp [startStreaming]

/-- C1 (witness): the amended theorem at N = 2 on a fresh streamer. -/
theorem c1_nth_emission_carries_n_witness :
    (emissionAt 2).data = "Data update: " ++ toString 2 ∧
    ((startStreaming initStreamer).1).threads.getLast? = some initLoopState ∧
    initLoopState.counter = 0 ∧
    (emissionAt 0).data = "Data update: 0" :=
  c1_nth_emission_carries_n 2 (by decide) initStreamer

/-- C2 (counterexample): calling `startStreaming` a second time without an
intervening stop does NOT fail with `AlreadyRunningError` — it returns no
error and a second production loop is now running. -/
theorem c2_counterexample :
    (startStreaming (startStreaming initStreamer).1).2 ≠
      some StreamError.alreadyRunningError ∧
    ((startStreaming (startStreaming initStreamer).1).1).threads.length = 2 := by
  decide

/-- C2 (amended): `startStreaming` performs no running check and surfaces no
error in any state: every call returns no error and silently starts one more
independent production loop (with a fresh counter), even when one is already
running. -/
theorem c2_start_never_fails (s : StreamerState) :
    (startStreaming s).2 = none ∧
    ((startStreaming s).1).threads.length = s.threads.length + 1 ∧
    ((startStreaming s).1).threads.getLast? = some initLoopState := by
  refine ⟨rfl, ?_, ?_⟩ <;> simp [startStreaming]

/-- C3: the production loop never terminates: the `while (true)` condition
holds in every state, so running the loop for any number `n` of steps from
any reachable state performs exactly `n` iterations and produces exactly `n`
emissions — another iteration always follows. -/
theorem c3_loop_never_terminates :
    (∀ s, loopCond s = true) ∧ ∀ n s, ((runFor n s).1).length = n := by
  refine ⟨fun _ => rfl, ?_⟩
  intro n
  induction n with
  | zero => intro s; rfl
  | succ k ih => intro s; simp [runFor, loopCond, ih]

/-- C4: no slot is connected to `dataChanged` (the source has no `connect`
call), so delivering any emission to the UI leaves every label — street
name, image, and the three priority labels — unchanged. -/
theorem c4_streamer_never_wired (data : String) (u : UIState) :
    dataChangedConnections = [] ∧ deliverDataChanged data u = u :=
  ⟨rfl, rfl⟩

/-- C5 (counterexample): the loop is not unthrottled: the time between
emission 0 and emission 1 is the 1-second sleep, not zero. -/
theorem c5_counterexample :
    emissionClock iterationSleepMs 1 - emissionClock iterationSleepMs 0 ≠ 0 := by
  decide

/-- C5 (amended): the production loop is throttled: each iteration emits its
event and then sleeps `std::chrono::seconds(1)`, so successive emissions are
separated by exactly 1000 ms. -/
theorem c5_loop_throttled (n : Nat) :
    iterationSleepMs = 1000 ∧
    emissionClock iterationSleepMs (n + 1) =
      emissionClock iterationSleepMs n + 1000 :=
  ⟨rfl, rfl⟩

/-- C6 (counterexample): by t = 350 ms with a 100 ms interval the subscriber
HAS received event 3, contradicting the claim "events 0,1,2 (not 3)": the
loop emits before it sleeps, so event 3 is emitted at t = 300 ms. -/
theorem c6_counterexample : receivedBy 100 350 3 := by decide

/-- C6 (amended): the first event is produced immediately at start (t = 0),
not after the first full interval; with a 100 ms interval a subscriber
active from t = 0 has, by t = 350 ms, received exactly the events with
sequence numbers 0, 1, 2 and 3. -/
theorem c6_first_event_immediate (n : Nat) :
    emissionClock 100 0 = 0 ∧ (receivedBy 100 350 n ↔ n ≤ 3) := by
  refine ⟨rfl, ?_⟩
  unfold receivedBy
  rw [emissionClock_eq]
  omega

/-- C6 (witness): the amended theorem at n = 3. -/
theorem c6_first_event_immediate_witness :
    emissionClock 100 0 = 0 ∧ (receivedBy 100 350 3 ↔ 3 ≤ 3) :=
  c6_first_event_immediate 3

/-- C7: after the `SimpleUI` constructor, the window is frameless and
translucent, and the widget holds exactly one street-name label (reading
"Next Street Name"), one directional-arrow image label (pixmap
"Arrow_Left.png"), and three priority-message labels whose texts are
color-coded red, gold and green. -/
theorem c7_constructor_window_and_labels :
    simpleUIWindow.framelessWindowHint = true ∧
    simpleUIWindow.translucentBackground = true ∧
    (simpleUILabels.filter (fun p => p.1 == .street)).length = 1 ∧
    (simpleUILabels.filter (fun p => p.1 == .image)).length = 1 ∧
    (simpleUILabels.filter (fun p => p.1 == .priority)).length = 3 ∧
    upperTextBox.text = "<font color=\"black\"> Next Street Name </font>" ∧
    imageLabel.pixmap = some "Arrow_Left.png" ∧
    (simpleUILabels.filter (fun p => p.1 == .priority)).map Prod.snd =
      [rightTextBox1, rightTextBox2, rightTextBox3] ∧
    declaresFontColor "red" rightTextBox1 = true ∧
    declaresFontColor "gold" rightTextBox2 = true ∧
    declaresFontColor "green" rightTextBox3 = true := by
  decide

/-- C8: `setStyleSheet` replaces the whole style sheet, so the second call in
the constructor overwrites the first: after construction the style sheet is
exactly "border: 4px solid black;", the "background:transparent;" sheet is
gone, and translucency rests solely on the `WA_TranslucentBackground`
attribute, which is set. -/
theorem c8_second_stylesheet_overwrites :
    (∀ w s1 s2, (setStyleSheet s2 (setStyleSheet s1 w)).styleSheet = s2) ∧
    simpleUIWindow.styleSheet = "border: 4px solid black;" ∧
    simpleUIWindow.styleSheet ≠ "background:transparent;" ∧
    simpleUIWindow.translucentBackground = true := by
  refine ⟨fun _ _ _ => rfl, rfl, ?_, rfl⟩
  decide

/-- C9: the counter is a 32-bit int incremented once per emission with no
bound check: payload numbers are strictly increasing while the counter stays
below 2^31, the step from emission 2^31 - 1 to emission 2^31 wraps to a
smaller (negative) value — monotonicity is lost — and the payload-number
sequence is periodic modulo 2^32. -/
theorem c9_counter_wraps :
    (∀ n, n + 1 < 2 ^ 31 → payloadNum n < payloadNum (n + 1)) ∧
    ¬ payloadNum (2 ^ 31 - 1) < payloadNum (2 ^ 31) ∧
    ∀ n, payloadNum (n + 2 ^ 32) = payloadNum n := by
  refine ⟨?_, by decide, ?_⟩
  · intro n h
    simp only [payloadNum, counterVal, toSigned]
    rw [Nat.mod_eq_of_lt (by omega), Nat.mod_eq_of_lt (by omega),
      if_pos (by omega : n < 2 ^ 31), if_pos h]
    exact_mod_cast Nat.lt_succ_self n
  · intro n
    simp only [payloadNum, counterVal, Nat.add_mod_right]

/-- C9 (witness): the strict-increase part at n = 1. -/
theorem c9_counter_wraps_witness : payloadNum 1 < payloadNum 2 :=
  c9_counter_wraps.1 1 (by decide)

/-- C10: `main` constructs `QApplication`, constructs `SimpleUI`, shows it,
and runs the event loop — nothing else: it never constructs a `DataStreamer`
and never calls `startStreaming`, so no background thread is created and the
`dataChanged` signal is never emitted. -/
theorem c10_main_never_streams :
    mainActions =
      [.constructQApplication, .constructSimpleUI, .showWindow, .execEventLoop] ∧
    MainAction.constructDataStreamer ∉ mainActions ∧
    MainAction.callStartStreaming ∉ mainActions ∧
    (mainActions.map threadsCreated).sum = 0 ∧
    mainActions.all (fun a => !emitsDataChanged a) = true := by
  decide

end QTHUD
